import Mathlib

/-!
Shallow embedding of `src/api/index.py` (Transperth station departure
scraper, Vercel/Redis variant).

Conventions of the embedding:
* Python/JSON dynamic values are modelled by the inductive `JSON`
  (numbers restricted to integers; floats do not occur in the claims).
* Python `dict.get(k, default)` on a value that is not a dict raises
  `AttributeError`; this is modelled by `Except Unit` failure, which the
  per-trip `try/except` (and the outer handlers) turn into a skip.
* Wall-clock instants are integers counting seconds (UTC).  The code
  serializes instants with `datetime.isoformat()` and reads them back
  with `datetime.fromisoformat()`; this lossless round trip is modelled
  by storing the instant itself.
* `datetime.fromisoformat` is an external stdlib routine; it is
  abstracted as a parameter of type `ParseISO` (`String → Option
  PyDateTime`).  A `PyDateTime` records the parsed naive wall-clock
  seconds and the optional UTC offset carried by the string.
* `PERTH_TZ` is modelled as the fixed offset UTC+8 (the code's fallback
  constructs exactly `timezone(timedelta(hours=8))`; the zoneinfo branch
  yields the same offset, Australia/Perth observing no DST).
* Redis is modelled as an explicit store value threaded through the
  functions; `setex key ttl v` stores the value with absolute expiry
  `now + ttl`, and `get` returns it only before that expiry.  Store
  operations themselves never fail in the model (the code swallows store
  failures, treating caching as absent; the claims below all concern the
  store-working behaviour).
* HTTP traffic is modelled by oracles in `PageEnv`/`FetchEnv`, plus
  counters for the page GET and the timetable POST actually issued.
-/

/-- Python/JSON dynamic values (numbers restricted to integers). -/
inductive JSON where
  | null : JSON
  | bool : Bool → JSON
  | num : Int → JSON
  | str : String → JSON
  | arr : List JSON → JSON
  | obj : List (String × JSON) → JSON
deriving Repr

/-- First binding of a key in a Python dict, modelled as an assoc list. -/
def JSON.lookup : List (String × JSON) → String → Option JSON
  | [], _ => none
  | (k, v) :: rest, key => if k = key then some v else JSON.lookup rest key

/-- Python `x.get(k, default)`: succeeds on dicts, raises (models
`AttributeError`) on any other value. -/
def pyGet (x : JSON) (k : String) (default : JSON) : Except Unit JSON :=
  match x with
  | .obj kvs => .ok ((JSON.lookup kvs k).getD default)
  | _ => .error ()

/-- Python truthiness of a JSON-like value. -/
def JSON.truthy : JSON → Bool
  | .null => false
  | .bool b => b
  | .num n => n != 0
  | .str s => !s.isEmpty
  | .arr xs => !xs.isEmpty
  | .obj kvs => !kvs.isEmpty

/-- Python `a or b` (value-returning, short-circuit on truthiness). -/
def pyOr (a b : JSON) : JSON := if a.truthy then a else b

/-- A value must be a `str` for Python string operations (`re.search`,
`in`, `split`); anything else raises `TypeError`. -/
def asStr : JSON → Except Unit String
  | .str s => .ok s
  | _ => .error ()

/-- Python `c in s` for a single character and a string. -/
def pyInStr (c : Char) (s : String) : Bool := s.data.contains c

/-- Python `x == "s"` where the right operand is a string literal:
true exactly for the equal string (no cross-type equality with str). -/
def jsonEqStr (x : JSON) (s : String) : Bool :=
  match x with
  | .str t => t == s
  | _ => false

mutual
/-- Python `str()` of a JSON-like value (used by the f-strings building
the stops description).  Elements inside containers are shown with
`repr`, i.e. strings quoted — that case is inlined in the two list
helpers so the recursion stays structural; string escaping edge cases
do not occur in the claims. -/
def pyStr : JSON → String
  | .null => "None"
  | .bool b => if b then "True" else "False"
  | .num n => toString n
  | .str s => s
  | .arr xs => "[" ++ pyStrElems xs ++ "]"
  | .obj kvs => "\x7b" ++ pyStrKVs kvs ++ "\x7d"

/-- Comma-separated reprs of list elements. -/
def pyStrElems : List JSON → String
  | [] => ""
  | [.str s] => "'" ++ s ++ "'"
  | [x] => pyStr x
  | .str s :: rest => "'" ++ s ++ "'" ++ ", " ++ pyStrElems rest
  | x :: rest => pyStr x ++ ", " ++ pyStrElems rest

/-- Comma-separated `k: v` reprs of dict items. -/
def pyStrKVs : List (String × JSON) → String
  | [] => ""
  | [(k, .str s)] => "'" ++ k ++ "': " ++ ("'" ++ s ++ "'")
  | [(k, v)] => "'" ++ k ++ "': " ++ pyStr v
  | (k, .str s) :: rest => "'" ++ k ++ "': " ++ ("'" ++ s ++ "'") ++ ", " ++ pyStrKVs rest
  | (k, v) :: rest => "'" ++ k ++ "': " ++ pyStr v ++ ", " ++ pyStrKVs rest
end

/-!  Time utilities (`calculate_minutes_until`, lines 212–230). -/

/-- Result of `datetime.fromisoformat` on a parseable string:
the naive wall-clock instant (seconds) plus the UTC offset (seconds)
when the string carried one (`tzinfo`). -/
structure PyDateTime where
  naiveSeconds : Int
  tzOffset : Option Int
deriving DecidableEq, Repr

/-- Abstraction of the stdlib `datetime.fromisoformat`: `none` models a
raised `ValueError` (string not parseable as a timestamp). -/
abbrev ParseISO := String → Option PyDateTime

/-- `PERTH_TZ` as a fixed offset: UTC+8, in seconds (the code's
fallback constructs exactly `timezone(timedelta(hours=8))`, and
`ZoneInfo('Australia/Perth')` has the same fixed offset, no DST). -/
def PERTH_TZ_OFFSET : Int := 8 * 3600

/-- The UTC instant denoted by a parsed datetime: naive wall clock
minus its offset, defaulting the offset to Perth time — this is the
`replace(tzinfo=PERTH_TZ)` step for offset-less strings. -/
def PyDateTime.utcSeconds (d : PyDateTime) : Int :=
  d.naiveSeconds - d.tzOffset.getD PERTH_TZ_OFFSET

/-- `calculate_minutes_until` (lines 212–230).  `nowUtc` is the UTC
instant of `datetime.now(PERTH_TZ)`.  The argument is the dynamic value
handed over by the trip loop; `fromisoformat` raises `TypeError` on a
non-string, which the function's own `try/except` turns into `None`,
as it does a `ValueError` on an unparseable string.  `int()` truncates
toward zero, hence `Int.tdiv`. -/
def calculate_minutes_until (fromisoformat : ParseISO) (nowUtc : Int)
    (depart_time_str : JSON) : Option Int :=
  match depart_time_str with
  | .str s =>
    match fromisoformat s with
    | none => none
    | some dt => some (max 0 (Int.tdiv (dt.utcSeconds - nowUtc) 60))
  | _ => none

/-!  The platform regex `re.search(r'Platform\s+(\d+)', stop_name)`
(lines 310–311), modelled as a leftmost search over the characters. -/

/-- Python regex `\s` on the ASCII whitespace it matches here. -/
def isPySpace (c : Char) : Bool :=
  c == ' ' || c == '\t' || c == '\n' || c == '\r' || c == '\x0b' || c == '\x0c'

/-- Python regex `\d` (ASCII digits; the vendor page uses ASCII). -/
def isPyDigit (c : Char) : Bool := '0' ≤ c && c ≤ '9'

/-- Drop a literal pattern from the front of the text, or fail. -/
def dropLiteral : List Char → List Char → Option (List Char)
  | [], cs => some cs
  | _ :: _, [] => none
  | p :: ps, c :: cs => if c = p then dropLiteral ps cs else none

/-- Try to match `Platform\s+(\d+)` anchored at the head; return the
captured digit run (both `\s+` and `\d+` are greedy, and greediness is
exact here since a shorter `\s+` leaves a whitespace char where a digit
is required). -/
def platformAt (cs : List Char) : Option String :=
  match dropLiteral "Platform".data cs with
  | none => none
  | some rest =>
    if (rest.takeWhile isPySpace).isEmpty then none
    else
      let after := rest.dropWhile isPySpace
      let ds := after.takeWhile isPyDigit
      if ds.isEmpty then none else some (String.mk ds)

/-- `re.search`: leftmost position where the pattern matches. -/
def searchPlatform : List Char → Option String
  | [] => none
  | c :: cs =>
    match platformAt (c :: cs) with
    | some s => some s
    | none => searchPlatform cs

/-!  Departure records and the per-trip parse (lines 306–384). -/

/-- The departure dict appended for each successfully parsed trip
(lines 365–375).  Fields that only ever hold strings in the code
(`platform`, `stops`) are `String`; fields copied from vendor JSON stay
dynamic. -/
structure Departure where
  platform : String
  destination : JSON
  time_display : JSON
  minutes : Int
  pattern : JSON
  stops : String
  route : JSON
  route_code : JSON
  direction : JSON
deriving Repr

/-- Lines 339–347: the departure instant handed to
`calculate_minutes_until` — prefer the (truthy) estimated time; graft
the scheduled date (or today's date) onto a date-less estimated time.
`'T' not in x` raises `TypeError` on the non-`str` values that can
reach it here, modelled as failure. -/
def resolve_depart_time (estimated_time scheduled_time : JSON)
    (todayStr : String) : Except Unit JSON :=
  if estimated_time.truthy then
    match estimated_time with
    | .str e =>
      if pyInStr 'T' e then .ok (.str e)
      else
        match scheduled_time with
        | .str s =>
          let date_part := if pyInStr 'T' s then (s.splitOn "T").headD "" else todayStr
          .ok (.str (date_part ++ "T" ++ e))
        | _ => .error ()
    | _ => .error ()
  else .ok scheduled_time

/-- The body of the `for trip in trips` loop (lines 306–378), up to the
`departures.append`.  `.error` is an exception caught by the loop's
`except` (record skipped); `.ok none` is the `minutes is None`
`continue` (record skipped); `.ok (some d)` is an appended departure.
`todayStr` is `datetime.now().strftime('%Y-%m-%d')`. -/
def parse_trip_core (fromisoformat : ParseISO) (nowUtc : Int)
    (todayStr : String) (trip : JSON) : Except Unit (Option Departure) := do
  let stopObj ← pyGet trip "StopTimetableStop" (.obj [])
  let nameJ ← pyGet stopObj "Name" (.str "")
  let stop_name ← asStr nameJ
  let platform := (searchPlatform stop_name.data).getD "?"
  let summary ← pyGet trip "Summary" (.obj [])
  let headsign ← pyGet summary "Headsign" (.str "")
  let direction ← pyGet summary "Direction" (.str "0")
  let display_title ← pyGet trip "DisplayTripTitle" (.str "")
  let _display_description ← pyGet trip "DisplayTripDescription" (.str "")
  let display_status ← pyGet trip "DisplayTripStatus" (.str "")
  let countdown ← pyGet trip "DisplayTripStatusCountDown" (.str "")
  let route_name ← pyGet summary "RouteName" (.str "")
  let display_route_code ← pyGet trip "DisplayRouteCode" (.str "")
  let real_time ← pyGet trip "RealTimeInfo" (.obj [])
  let srt1 ← pyGet summary "RealTimeInfo" (.obj [])
  let series ← pyGet srt1 "Series" (.str "W")
  let srt2 ← pyGet summary "RealTimeInfo" (.obj [])
  let num_cars ← pyGet srt2 "NumCars" (.str "")
  let scheduled_time ← pyGet trip "DepartTime" (.str "")
  let estimated_time ← pyGet real_time "EstimatedDepartureTime" (.str "")
  let depart_time ← resolve_depart_time estimated_time scheduled_time todayStr
  match calculate_minutes_until fromisoformat nowUtc depart_time with
  | none => return none
  | some minutes => do
    let stops := "All Stations"
    let stops := if num_cars.truthy then stops ++ " (" ++ pyStr num_cars ++ " cars)" else stops
    let stops := if series.truthy then stops ++ " - " ++ pyStr series ++ " series" else stops
    let _delay_status ← pyGet trip "RealTimeStopStatusDetail" (.str "")
    return some {
      platform := platform
      destination := pyOr display_title headsign
      time_display := pyOr countdown display_status
      minutes := minutes
      pattern := pyOr series (.str "W")
      stops := stops
      route := route_name
      route_code := display_route_code
      direction := direction }

/-- One trip record parsed independently: exceptions and the
`minutes is None` continue both become a skip. -/
def parse_trip (fromisoformat : ParseISO) (nowUtc : Int) (todayStr : String)
    (trip : JSON) : Option Departure :=
  match parse_trip_core fromisoformat nowUtc todayStr trip with
  | .ok r => r
  | .error _ => none

/-- The whole `for trip in trips` loop: skipped records vanish. -/
def parse_trips (fromisoformat : ParseISO) (nowUtc : Int) (todayStr : String)
    (trips : List JSON) : List Departure :=
  trips.filterMap (parse_trip fromisoformat nowUtc todayStr)

/-!  Redis cache model and token provider (lines 85–210). -/

/-- `TOKEN_CACHE_TTL = 300  # 5 minutes` (line 89), in seconds. -/
def TOKEN_CACHE_TTL : Int := 300

/-- `DEPARTURE_CACHE_TTL = 30  # 30 seconds` (line 90), in seconds. -/
def DEPARTURE_CACHE_TTL : Int := 30

/-- The in-flight tokens dict: built fresh by `fetch_page_tokens`
(verification token, module/tab ids, session cookies, timestamp), or
rebuilt from the cache (same keys, no cookies).  `timestamp` is the
instant it carries; `hasCookies` records whether the `cookies` key is
present (cache-sourced tokens lack it, `tokens.get('cookies')` then
yields `None`). -/
structure Tokens where
  verification_token : JSON
  module_id : JSON
  tab_id : JSON
  timestamp : Int
  hasCookies : Bool
deriving Repr

/-- The JSON value stored under `transperth:tokens` by `cache_tokens`
(lines 121–126): the cookie-less field selection, `timestamp` the
instant whose ISO string is stored. -/
structure CachedTokens where
  verification_token : JSON
  module_id : JSON
  tab_id : JSON
  timestamp : Int
deriving Repr

/-- The JSON value stored under `transperth:departures:<id>` by
`cache_departures`: the result dict (lines 424–430) plus the
`cached_at` instant added at line 158. -/
structure CachedResult where
  success : Bool
  perth : List Departure
  south : List Departure
  station_id : String
  last_updated : Int
  cached_at : Int
deriving Repr

/-- The Redis store: the single `transperth:tokens` entry and the
per-station `transperth:departures:<id>` entries, each paired with its
absolute expiry instant (`setex` TTL).  New departure entries are
consed in front; `find?` takes the newest, i.e. `setex` overwrites. -/
structure RedisState where
  tokenEntry : Option (CachedTokens × Int)
  depEntries : List (String × CachedResult × Int)
deriving Repr

/-- The initial, empty store. -/
def RedisState.empty : RedisState := ⟨none, []⟩

/-- Redis `get 'transperth:departures:<sid>'`: the newest entry for
the station, if any. -/
def RedisState.lookupDep (st : RedisState) (sid : String) :
    Option (CachedResult × Int) :=
  (st.depEntries.find? (fun e => e.1 == sid)).map (fun e => e.2)

/-- What the vendor's live-timetable page yields for this request:
HTTP status, the `value` attribute of the `__RequestVerificationToken`
input when that element exists, and the `content` attribute of the
fallback meta element when it exists (an attribute-less element shows
up as `some JSON.null`, Python `None`). -/
structure PageEnv where
  status : Int
  inputTokenValue : Option JSON
  metaTokenContent : Option JSON
deriving Repr

/-- `fetch_page_tokens` (lines 164–210), at instant `t`.  One HTTP GET
is always issued (counted by the caller).  Non-200 → `None`; the token
is taken from the input element first, else the meta element; a falsy
token (absent or empty) → `None`.  Module/tab ids are the hardcoded
constants. -/
def fetch_page_tokens (page : PageEnv) (t : Int) : Option Tokens :=
  if page.status ≠ 200 then none
  else
    let verification_token : JSON :=
      match page.inputTokenValue with
      | some v => v
      | none => page.metaTokenContent.getD JSON.null
    if verification_token.truthy then
      some ⟨verification_token, .str "5111", .str "248", t, true⟩
    else none

/-- `get_cached_tokens` (lines 92–110), at instant `t`: the Redis entry
if the store still holds it (TTL), re-checked against
`age < TOKEN_CACHE_TTL`; else `None`. -/
def get_cached_tokens (redis_enabled : Bool) (st : RedisState) (t : Int) :
    Option CachedTokens :=
  if redis_enabled then
    match st.tokenEntry with
    | some (ct, expiry) =>
      if t < expiry then
        if t - ct.timestamp < TOKEN_CACHE_TTL then some ct else none
      else none
    | none => none
  else none

/-- `cache_tokens` (lines 112–130), at instant `t`: store the
cookie-less selection with TTL 300 (no-op when the store is absent). -/
def cache_tokens (redis_enabled : Bool) (st : RedisState) (t : Int)
    (tk : Tokens) : RedisState :=
  if redis_enabled then
    let entry : CachedTokens := ⟨tk.verification_token, tk.module_id, tk.tab_id, t⟩
    { st with tokenEntry := some (entry, t + TOKEN_CACHE_TTL) }
  else st

/-- The token-acquisition steps of `fetch_all_departures`
(lines 236–244): cache first, else one page GET (counted), caching a
fresh token.  Returns the tokens dict (if any), the updated store, and
the number of HTTP GETs issued. -/
def acquire_tokens (page : PageEnv) (redis_enabled : Bool)
    (st : RedisState) (t : Int) : Option Tokens × RedisState × Nat :=
  match get_cached_tokens redis_enabled st t with
  | some ct => (some ⟨ct.verification_token, ct.module_id, ct.tab_id, ct.timestamp, false⟩, st, 0)
  | none =>
    match fetch_page_tokens page t with
    | some tk => (some tk, cache_tokens redis_enabled st t tk, 1)
    | none => (none, st, 1)

/-- `get_cached_departures` (lines 132–149), at instant `t`: the Redis
entry while the store holds it.  (Entries are only ever written by
`cache_departures`, so `cached_at` parses back; its age is only
printed.) -/
def get_cached_departures (redis_enabled : Bool) (st : RedisState)
    (t : Int) (station_id : String) : Option CachedResult :=
  if redis_enabled then
    match st.lookupDep station_id with
    | some (entry, expiry) => if t < expiry then some entry else none
    | none => none
  else none

/-!  Upstream client and endpoint (lines 232–444). -/

/-- Everything the outside world feeds one request: the live-times page
(for `fetch_page_tokens`), the timetable POST's HTTP status and decoded
JSON body (`none` when `response.json()` raises), the stdlib ISO
parser, and today's date string `datetime.now().strftime('%Y-%m-%d')`. -/
structure FetchEnv where
  page : PageEnv
  apiStatus : Int
  apiBody : Option JSON
  fromisoformat : ParseISO
  todayStr : String

/-- Handling of the timetable POST response (lines 285–384): non-200 →
`[]`; undecodable body → exception → outer handler → `[]`; `result`
discriminator ≠ `"success"` → `[]`; then the per-trip loop.  Iterating
a non-list `trips` value either raises (outer handler → `[]`) or, for
str/dict, yields only non-dict items every one of which the per-trip
`except` skips — `[]` either way. -/
def process_api_response (env : FetchEnv) (nowUtc : Int) : List Departure :=
  if env.apiStatus ≠ 200 then []
  else
    match env.apiBody with
    | none => []
    | some data =>
      match pyGet data "result" JSON.null with
      | .error _ => []
      | .ok r =>
        if jsonEqStr r "success" then
          match pyGet data "trips" (.arr []) with
          | .error _ => []
          | .ok (.arr trips) => parse_trips env.fromisoformat nowUtc env.todayStr trips
          | .ok _ => []
        else []

/-- The outcome of one `fetch_all_departures` call: the departures,
the store as left behind, and how many page GETs / timetable POSTs the
call issued. -/
structure FetchOut where
  departures : List Departure
  st : RedisState
  gets : Nat
  posts : Nat

/-- `fetch_all_departures` (lines 232–390) at instant `t`: acquire
tokens (argument, else cache, else one page GET); without a truthy
verification token return `[]` (lines 246–248); otherwise issue the one
timetable POST and process its response. -/
def fetch_all_departures (env : FetchEnv) (redis_enabled : Bool)
    (st : RedisState) (t : Int) (station_id : String) (tokens0 : Option Tokens) :
    FetchOut :=
  let _ := station_id   -- only used to address the POST form data
  let acq : Option Tokens × RedisState × Nat :=
    match tokens0 with
    | some tk => (some tk, st, 0)
    | none => acquire_tokens env.page redis_enabled st t
  match acq with
  | (none, st1, gets) => ⟨[], st1, gets, 0⟩
  | (some tk, st1, gets) =>
    if tk.verification_token.truthy then
      ⟨process_api_response env t, st1, gets, 1⟩
    else ⟨[], st1, gets, 0⟩

/-- Stable insertion of a departure into a list already ordered by
`minutes`, placing it before the first strictly larger element — the
ordering `list.sort(key=lambda x: x['minutes'])` produces. -/
def insertByMinutes (d : Departure) : List Departure → List Departure
  | [] => [d]
  | x :: xs =>
    if d.minutes ≤ x.minutes then d :: x :: xs else x :: insertByMinutes d xs

/-- `perth.sort(key=lambda x: x['minutes'])`: Timsort is a stable sort,
and a stable sort's output is unique, so stable insertion sort computes
the same list. -/
def sortByMinutes : List Departure → List Departure
  | [] => []
  | x :: xs => insertByMinutes x (sortByMinutes xs)

/-- The JSON body `jsonify` serializes for `/api/departures`: the
result dict of lines 424–430.  `cached_at` is `some` when
`cache_departures` has added the key to this very dict in place
(line 158) before the dict was returned; the cache-hit path pops it. -/
structure DepBody where
  success : Bool
  perth : List Departure
  south : List Departure
  station_id : String
  last_updated : Int
  cached_at : Option Int
deriving Repr

/-- `cache_departures` (lines 151–162) at instant `t`: with a store,
add `cached_at` to the dict in place and `setex` it for 30 s; without
one, leave everything untouched.  Returns the updated store and the
dict as the caller now sees it. -/
def cache_departures (redis_enabled : Bool) (st : RedisState) (t : Int)
    (station_id : String) (data : DepBody) : RedisState × DepBody :=
  if redis_enabled then
    let entry : CachedResult :=
      ⟨data.success, data.perth, data.south, data.station_id, data.last_updated, t⟩
    ({ st with depEntries := (station_id, entry, t + DEPARTURE_CACHE_TTL) :: st.depEntries },
     { data with cached_at := some t })
  else (st, data)

/-- The outcome of one `/api/departures` request: HTTP status, the
serialized body, the store as left behind, and the upstream traffic
issued. -/
structure EndpointOut where
  status : Nat
  body : DepBody
  st : RedisState
  gets : Nat
  posts : Nat

/-- `get_departures` (lines 392–444) at instant `t`: cache hit → pop
`cached_at`, 200, no upstream traffic; miss → fetch, partition on
`direction == '0'` / `== '1'`, sort each side by `minutes`, keep the
first 10, cache, 200.  (The 500 branch fires only on an exception,
which this flow does not raise.) -/
def get_departures (env : FetchEnv) (redis_enabled : Bool)
    (st : RedisState) (t : Int) (station_id : String) : EndpointOut :=
  match get_cached_departures redis_enabled st t station_id with
  | some c =>
    ⟨200, ⟨c.success, c.perth, c.south, c.station_id, c.last_updated, none⟩, st, 0, 0⟩
  | none =>
    let fr := fetch_all_departures env redis_enabled st t station_id none
    let perth := sortByMinutes (fr.departures.filter (fun d => jsonEqStr d.direction "0"))
    let south := sortByMinutes (fr.departures.filter (fun d => jsonEqStr d.direction "1"))
    let result : DepBody :=
      ⟨true, perth.take 10, south.take 10, station_id, t, none⟩
    let out := cache_departures redis_enabled fr.st t station_id result
    ⟨200, out.2, out.1, fr.gets, fr.posts⟩

/-!  Concrete scenarios used to instantiate the theorems below. -/

/-- An ISO parser fragment for the 15-trip scenario: `"mk"` denotes the
naive instant `60*k` seconds carrying an explicit UTC offset `+00:00`. -/
def c2from : ParseISO := fun s =>
  if s = "m0" then some ⟨0, some 0⟩
  else if s = "m1" then some ⟨60, some 0⟩
  else if s = "m2" then some ⟨120, some 0⟩
  else if s = "m3" then some ⟨180, some 0⟩
  else if s = "m4" then some ⟨240, some 0⟩
  else if s = "m5" then some ⟨300, some 0⟩
  else if s = "m6" then some ⟨360, some 0⟩
  else if s = "m7" then some ⟨420, some 0⟩
  else if s = "m8" then some ⟨480, some 0⟩
  else if s = "m9" then some ⟨540, some 0⟩
  else if s = "m10" then some ⟨600, some 0⟩
  else if s = "m11" then some ⟨660, some 0⟩
  else if s = "m12" then some ⟨720, some 0⟩
  else if s = "m13" then some ⟨780, some 0⟩
  else if s = "m14" then some ⟨840, some 0⟩
  else none

/-- A perthbound trip whose departure string parses to `k` minutes
after the scenario's `now = 0`. -/
def c2trip (k : Nat) : JSON := .obj
  [("DepartTime", .str ("m" ++ toString k)),
   ("Summary", .obj [("Direction", .str "0")])]

/-- The departure `c2trip k` parses to. -/
def c2dep (k : Nat) : Departure :=
  ⟨"?", .str "", .str "", (k : Int), .str "W", "All Stations - W series",
   .str "", .str "", .str "0"⟩

/-- The (scrambled) order in which the 15 distinct-minute trips arrive
from upstream. -/
def c2order : List Nat := [7, 3, 12, 0, 14, 9, 1, 11, 5, 13, 2, 8, 6, 10, 4]

/-- Environment for the 15-trip scenario: healthy page and API, body
carrying the 15 trips in scrambled order. -/
def c2env : FetchEnv :=
  { page := ⟨200, some (.str "tok"), none⟩
    apiStatus := 200
    apiBody := some (.obj [("result", .str "success"), ("trips", .arr (c2order.map c2trip))])
    fromisoformat := c2from
    todayStr := "2024-01-01" }

/-- An ISO parser fragment recognising a single timestamp (naive,
10:05:00 as seconds of day). -/
def c7from : ParseISO := fun s =>
  if s = "2024-01-01T10:05:00" then some ⟨36300, none⟩ else none

/-- A well-formed trip record: scheduled departure five minutes after
the scenario's `now` (7200 UTC = 10:00 Perth wall clock). -/
def c7good : JSON := .obj
  [("DepartTime", .str "2024-01-01T10:05:00"),
   ("Summary", .obj [("Direction", .str "0"), ("Headsign", .str "Perth")])]

/-- A malformed trip record: its `Summary` is a string, so
`summary.get('Headsign', '')` raises `AttributeError`. -/
def c7bad : JSON := .obj [("Summary", .str "oops")]

/-- What the well-formed record parses to. -/
def c7goodDep : Departure :=
  ⟨"?", .str "Perth", .str "", 5, .str "W", "All Stations - W series",
   .str "", .str "", .str "0"⟩

/-- Environment in which no token can be obtained: the live-times page
answers 500 (and no cache is configured in the scenario using it). -/
def c1env : FetchEnv :=
  { page := ⟨500, none, none⟩
    apiStatus := 200
    apiBody := none
    fromisoformat := fun _ => none
    todayStr := "2024-01-01" }

/-- A trip record whose `Summary` carries no `Direction` key. -/
def c9kvs : List (String × JSON) :=
  [("DepartTime", .str "2024-01-01T10:05:00"),
   ("Summary", .obj [("Headsign", .str "Perth")])]

/-- The `Summary` items of `c9kvs`. -/
def c9sum : List (String × JSON) := [("Headsign", .str "Perth")]

/-- Environment whose timetable query cleanly reports failure:
HTTP 200 with `result: "failure"`. -/
def c6env : FetchEnv :=
  { page := ⟨200, some (.str "tok"), none⟩
    apiStatus := 200
    apiBody := some (.obj [("result", .str "failure")])
    fromisoformat := fun _ => none
    todayStr := "2024-01-01" }

/-- A cached token bundle written at instant 0. -/
def c5tok : CachedTokens := ⟨.str "tok", .str "5111", .str "248", 0⟩

/-- A store holding only that token entry, with the expiry
`cache_tokens` gives it. -/
def c5st : RedisState := ⟨some (c5tok, c5tok.timestamp + TOKEN_CACHE_TTL), []⟩

/-!  Helper lemmas about the embedded definitions. -/

/-- `d.get('direction') == '0'` holds exactly for the string value. -/
theorem jsonEqStr_eq_true_iff (x : JSON) (s : String) :
    jsonEqStr x s = true ↔ x = .str s := by
  cases x <;> simp [jsonEqStr]

/-- Stable insertion only repositions the inserted element. -/
theorem insertByMinutes_perm (d : Departure) (l : List Departure) :
    List.Perm (insertByMinutes d l) (d :: l) := by
  induction l with
  | nil => exact List.Perm.refl _
  | cons x xs ih =>
    unfold insertByMinutes
    split
    · exact List.Perm.refl _
    · exact (ih.cons x).trans (List.Perm.swap d x xs)

/-- Sorting permutes the list. -/
theorem sortByMinutes_perm (l : List Departure) :
    List.Perm (sortByMinutes l) l := by
  induction l with
  | nil => exact List.Perm.refl _
  | cons x xs ih => exact (insertByMinutes_perm x (sortByMinutes xs)).trans (ih.cons x)

/-- Membership is unchanged by the sort. -/
theorem mem_sortByMinutes {d : Departure} {l : List Departure} :
    d ∈ sortByMinutes l ↔ d ∈ l :=
  (sortByMinutes_perm l).mem_iff

/-- Insertion keeps the list ordered by `minutes`. -/
theorem insertByMinutes_pairwise (d : Departure) {l : List Departure}
    (h : l.Pairwise (fun a b => a.minutes ≤ b.minutes)) :
    (insertByMinutes d l).Pairwise (fun a b => a.minutes ≤ b.minutes) := by
  induction l with
  | nil => simp [insertByMinutes]
  | cons x xs ih =>
    rw [List.pairwise_cons] at h
    unfold insertByMinutes
    split
    · rename_i hle
      refine List.pairwise_cons.mpr ⟨?_, List.pairwise_cons.mpr h⟩
      intro y hy
      rcases List.mem_cons.mp hy with rfl | hy
      · exact hle
      · exact le_trans hle (h.1 y hy)
    · rename_i hgt
      refine List.pairwise_cons.mpr ⟨?_, ih h.2⟩
      intro y hy
      rcases List.mem_cons.mp ((insertByMinutes_perm d xs).mem_iff.mp hy) with rfl | hy
      · exact le_of_not_le hgt
      · exact h.1 y hy

/-- The sorted list is ordered by `minutes`. -/
theorem sortByMinutes_pairwise (l : List Departure) :
    (sortByMinutes l).Pairwise (fun a b => a.minutes ≤ b.minutes) := by
  induction l with
  | nil => simp [sortByMinutes]
  | cons x xs ih => exact insertByMinutes_pairwise x ih

/-- Stability of insertion, seen through the per-minute fibers: the
inserted element lands in front of its own fiber and every other fiber
is untouched. -/
theorem insertByMinutes_filter (d : Departure) (l : List Departure) (m : Int) :
    (insertByMinutes d l).filter (fun x => decide (x.minutes = m))
      = (if d.minutes = m then [d] else [])
          ++ l.filter (fun x => decide (x.minutes = m)) := by
  induction l with
  | nil => by_cases h : d.minutes = m <;> simp [insertByMinutes, h]
  | cons x xs ih =>
    unfold insertByMinutes
    split
    · rename_i hle
      by_cases h : d.minutes = m <;> simp [List.filter_cons, h]
    · rename_i hgt
      by_cases h : d.minutes = m
      · have hx : ¬ x.minutes = m := by
          intro hx
          exact hgt (le_of_eq (h.trans hx.symm))
        simp [List.filter_cons, hx, ih, h]
      · simp [List.filter_cons, ih, h]

/-- Stability of the sort: each per-minute fiber of the output equals
the same fiber of the input — ties keep their original order. -/
theorem sortByMinutes_filter (l : List Departure) (m : Int) :
    (sortByMinutes l).filter (fun x => decide (x.minutes = m))
      = l.filter (fun x => decide (x.minutes = m)) := by
  induction l with
  | nil => rfl
  | cons x xs ih =>
    show (insertByMinutes x (sortByMinutes xs)).filter _ = _
    rw [insertByMinutes_filter, ih]
    by_cases h : x.minutes = m <;> simp [List.filter_cons, h]

/-- `max(0, int(x/60))` computed with truncating division agrees with
the floor division the spec describes: truncation and floor differ only
below zero, where the clamp takes over. -/
theorem max_tdiv_eq_max_fdiv (n : Int) :
    max 0 (Int.tdiv n 60) = max 0 (Int.fdiv n 60) := by
  cases n with
  | ofNat m =>
    cases m with
    | zero => rfl
    | succ k => rfl
  | negSucc m =>
    have h1 : Int.tdiv (Int.negSucc m) 60 ≤ 0 := by
      show -(Int.ofNat (Nat.succ m / 60)) ≤ 0
      exact neg_nonpos.mpr (Int.ofNat_nonneg _)
    have h2 : Int.fdiv (Int.negSucc m) 60 ≤ 0 := by
      show Int.negSucc (m / 60) ≤ 0
      exact le_of_lt (Int.negSucc_lt_zero _)
    rw [max_eq_left h1, max_eq_left h2]

/-- A `fetch_all_departures` call either hands back the processed API
response or the empty list (token missing / falsy). -/
theorem fetch_all_departures_departures_cases (env : FetchEnv) (re : Bool)
    (st : RedisState) (t : Int) (sid : String) (tk : Option Tokens) :
    (fetch_all_departures env re st t sid tk).departures = process_api_response env t ∨
    (fetch_all_departures env re st t sid tk).departures = [] := by
  rcases tk with _ | tk0
  · rcases hacq : acquire_tokens env.page re st t with ⟨otk, st1, gets⟩
    rcases otk with _ | tk1
    · right; simp [fetch_all_departures, hacq]
    · by_cases htr : tk1.verification_token.truthy
      · left; simp [fetch_all_departures, hacq, htr]
      · right; simp [fetch_all_departures, hacq, htr]
  · by_cases htr : tk0.verification_token.truthy
    · left; simp [fetch_all_departures, htr]
    · right; simp [fetch_all_departures, htr]

/-- A `fetch_all_departures` call issues at most one timetable POST. -/
theorem fetch_all_departures_posts_le_one (env : FetchEnv) (re : Bool)
    (st : RedisState) (t : Int) (sid : String) (tk : Option Tokens) :
    (fetch_all_departures env re st t sid tk).posts ≤ 1 := by
  rcases tk with _ | tk0
  · rcases hacq : acquire_tokens env.page re st t with ⟨otk, st1, gets⟩
    rcases otk with _ | tk1
    · simp [fetch_all_departures, hacq]
    · by_cases htr : tk1.verification_token.truthy <;>
        simp [fetch_all_departures, hacq, htr]
  · by_cases htr : tk0.verification_token.truthy <;>
      simp [fetch_all_departures, htr]

/-- A `fetch_all_departures` call issues at most one page GET. -/
theorem fetch_all_departures_gets_le_one (env : FetchEnv) (re : Bool)
    (st : RedisState) (t : Int) (sid : String) (tk : Option Tokens) :
    (fetch_all_departures env re st t sid tk).gets ≤ 1 := by
  have hacqle : (acquire_tokens env.page re st t).2.2 ≤ 1 := by
    unfold acquire_tokens
    rcases h : get_cached_tokens re st t with _ | ct
    · rcases hp : fetch_page_tokens env.page t with _ | tk1 <;> simp
    · simp
  rcases tk with _ | tk0
  · rcases hacq : acquire_tokens env.page re st t with ⟨otk, st1, gets⟩
    rw [hacq] at hacqle
    rcases otk with _ | tk1
    · simpa [fetch_all_departures, hacq] using hacqle
    · by_cases htr : tk1.verification_token.truthy <;>
        simpa [fetch_all_departures, hacq, htr] using hacqle
  · by_cases htr : tk0.verification_token.truthy <;>
      simp [fetch_all_departures, htr]

/-- `cache_departures` only ever touches the `cached_at` key of the
dict it is given. -/
theorem cache_departures_snd (re : Bool) (st : RedisState) (t : Int)
    (sid : String) (data : DepBody) :
    (cache_departures re st t sid data).2
      = { data with cached_at := if re then some t else data.cached_at } := by
  by_cases h : re <;> simp [cache_departures, h]

/-!  Claim theorems. -/

/-- C3: for every input string, `calculate_minutes_until` returns, for
a parseable timestamp, the floor of `(departTime - now)/60` clamped to
a minimum of 0 (interpreting an offset-less timestamp as fixed UTC+8
local time), and for an unparseable string an error value (`none`)
rather than raising; the trip loop treats that error as skipping the
one record, not as a fatal failure. -/
theorem C3_calculate_minutes_until (fromisoformat : ParseISO) (nowUtc : Int)
    (s : String) :
    (fromisoformat s = none →
      calculate_minutes_until fromisoformat nowUtc (.str s) = none) ∧
    (∀ dt : PyDateTime, fromisoformat s = some dt →
      calculate_minutes_until fromisoformat nowUtc (.str s)
        = some (max 0 (Int.fdiv (dt.utcSeconds - nowUtc) 60)) ∧
      (dt.tzOffset = none →
        calculate_minutes_until fromisoformat nowUtc (.str s)
          = some (max 0 (Int.fdiv (dt.naiveSeconds - PERTH_TZ_OFFSET - nowUtc) 60)))) ∧
    (∀ r : Int, calculate_minutes_until fromisoformat nowUtc (.str s) = some r →
      0 ≤ r) ∧
    (∀ (today : String) (pre post : List JSON) (trip : JSON),
      parse_trip fromisoformat nowUtc today trip = none →
      parse_trips fromisoformat nowUtc today (pre ++ trip :: post)
        = parse_trips fromisoformat nowUtc today pre
            ++ parse_trips fromisoformat nowUtc today post) := by
  refine ⟨?_, ?_, ?_, ?_⟩
  · intro h
    simp [calculate_minutes_until, h]
  · intro dt h
    refine ⟨?_, ?_⟩
    · simp [calculate_minutes_until, h, max_tdiv_eq_max_fdiv]
    · intro hoff
      simp [calculate_minutes_until, h, max_tdiv_eq_max_fdiv,
        PyDateTime.utcSeconds, hoff]
  · intro r h
    cases hfs : fromisoformat s with
    | none => simp [calculate_minutes_until, hfs] at h
    | some dt =>
      simp [calculate_minutes_until, hfs] at h
      rw [← h]
      exact le_max_left 0 _
  · intro today pre post trip h
    simp [parse_trips, List.filterMap_append, List.filterMap_cons, h]

/-- Witness for C3 at concrete inputs: an unparseable string yields the
error value, and a parseable offset-less timestamp yields the clamped
floor. -/
theorem C3_witness :
    calculate_minutes_until c7from 7200 (.str "not-a-time") = none ∧
    calculate_minutes_until c7from 7200 (.str "2024-01-01T10:05:00")
      = some (max 0 (Int.fdiv (36300 - PERTH_TZ_OFFSET - 7200) 60)) :=
  ⟨(C3_calculate_minutes_until c7from 7200 "not-a-time").1 rfl,
   ((C3_calculate_minutes_until c7from 7200 "2024-01-01T10:05:00").2.1
      ⟨36300, none⟩ rfl).2 rfl⟩

/-- C7: each raw trip record is parsed independently — a failing record
is skipped without aborting the rest of the loop; concretely, one
well-formed and one malformed record yield exactly the one well-formed
departure. -/
theorem C7_record_isolation :
    (∀ (fromisoformat : ParseISO) (nowUtc : Int) (today : String)
        (pre post : List JSON) (bad : JSON),
      parse_trip fromisoformat nowUtc today bad = none →
      parse_trips fromisoformat nowUtc today (pre ++ bad :: post)
        = parse_trips fromisoformat nowUtc today pre
            ++ parse_trips fromisoformat nowUtc today post) ∧
    parse_trip c7from 7200 "2024-01-01" c7bad = none ∧
    parse_trips c7from 7200 "2024-01-01" [c7good, c7bad] = [c7goodDep] := by
  refine ⟨?_, rfl, rfl⟩
  intro f n today pre post bad h
  simp [parse_trips, List.filterMap_append, List.filterMap_cons, h]

/-- Witness for C7: the skip property applied at the concrete
malformed record. -/
theorem C7_witness :
    parse_trips c7from 7200 "2024-01-01" ([c7good] ++ c7bad :: [])
      = parse_trips c7from 7200 "2024-01-01" [c7good]
          ++ parse_trips c7from 7200 "2024-01-01" [] :=
  C7_record_isolation.1 c7from 7200 "2024-01-01" [c7good] [] c7bad rfl

/-- C8: the departure instant used for the minutes-until computation is
the estimated time when one is present (truthy), otherwise the
scheduled time; a date-less estimated time gets the scheduled value's
date portion grafted on (or today's date when the scheduled value also
lacks one). -/
theorem C8_depart_instant (todayStr : String) (e s : String) (est sched : JSON) :
    (est.truthy = false → resolve_depart_time est sched todayStr = .ok sched) ∧
    (e ≠ "" → pyInStr 'T' e = true →
      resolve_depart_time (.str e) sched todayStr = .ok (.str e)) ∧
    (e ≠ "" → pyInStr 'T' e = false → pyInStr 'T' s = true →
      resolve_depart_time (.str e) (.str s) todayStr
        = .ok (.str ((s.splitOn "T").headD "" ++ "T" ++ e))) ∧
    (e ≠ "" → pyInStr 'T' e = false → pyInStr 'T' s = false →
      resolve_depart_time (.str e) (.str s) todayStr
        = .ok (.str (todayStr ++ "T" ++ e))) := by
  refine ⟨?_, ?_, ?_, ?_⟩
  · intro h
    simp [resolve_depart_time, h]
  · intro he hT
    simp [resolve_depart_time, JSON.truthy, String.isEmpty_iff, he, hT]
  · intro he hT hS
    simp [resolve_depart_time, JSON.truthy, String.isEmpty_iff, he, hT, hS]
  · intro he hT hS
    simp [resolve_depart_time, JSON.truthy, String.isEmpty_iff, he, hT, hS]

/-- Witness for C8: a time-only estimated value is grafted onto the
scheduled value's date. -/
theorem C8_witness :
    resolve_depart_time (.str "10:05:00") (.str "2024-01-01T09:00:00") "2024-01-02"
      = .ok (.str ((("2024-01-01T09:00:00").splitOn "T").headD "" ++ "T" ++ "10:05:00")) :=
  (C8_depart_instant "2024-01-02" "10:05:00" "2024-01-01T09:00:00"
      (.str "10:05:00") (.str "2024-01-01T09:00:00")).2.2.1
    (by decide) (by rfl) (by rfl)

set_option maxHeartbeats 4000000 in
/-- C9: a trip record whose `Summary` lacks the `Direction` key parses
(when it parses at all) to a departure with direction `"0"`, which is
exactly the perthbound test `d.get('direction') == '0'` used by
`get_departures`. -/
theorem C9_direction_default (fromisoformat : ParseISO) (nowUtc : Int)
    (today : String) (kvs sumkvs : List (String × JSON)) (d : Departure)
    (hsum : JSON.lookup kvs "Summary" = some (.obj sumkvs))
    (hdir : JSON.lookup sumkvs "Direction" = none)
    (h : parse_trip fromisoformat nowUtc today (.obj kvs) = some d) :
    d.direction = .str "0" ∧ jsonEqStr d.direction "0" = true := by
  have hd : d.direction = .str "0" := by
    unfold parse_trip at h
    split at h
    case h_2 => simp at h
    case h_1 =>
      rename_i r heq
      rw [h] at heq
      unfold parse_trip_core at heq
      simp only [pyGet, hsum, hdir, bind, Except.bind, pure, Except.pure,
        Option.getD] at heq
      repeat'
        first
        | split at heq
        | unfold asStr at heq
        | unfold resolve_depart_time at heq
        | unfold calculate_minutes_until at heq
        | unfold JSON.truthy at heq
      all_goals
        first
        | exact Except.noConfusion heq
        | (injection heq with h1; exact Option.noConfusion h1)
        | (injection heq with h1; injection h1 with h2; rw [← h2])
  exact ⟨hd, by rw [hd]; rfl⟩

/-- Witness for C9: the concrete direction-less record parses to a
departure classified perthbound. -/
theorem C9_witness :
    c7goodDep.direction = .str "0" ∧ jsonEqStr c7goodDep.direction "0" = true :=
  C9_direction_default c7from 7200 "2024-01-01" c9kvs c9sum c7goodDep rfl rfl rfl

/-- On a cache miss the endpoint answers 200 with the partitioned,
sorted, truncated fetch result (shape lemma shared by several claims). -/
theorem get_departures_miss_shape (env : FetchEnv) (re : Bool) (st : RedisState)
    (t : Int) (sid : String)
    (hmiss : get_cached_departures re st t sid = none) :
    (get_departures env re st t sid).status = 200 ∧
    (get_departures env re st t sid).body.success = true ∧
    (get_departures env re st t sid).body.perth
      = (sortByMinutes ((fetch_all_departures env re st t sid none).departures.filter
          (fun d => jsonEqStr d.direction "0"))).take 10 ∧
    (get_departures env re st t sid).body.south
      = (sortByMinutes ((fetch_all_departures env re st t sid none).departures.filter
          (fun d => jsonEqStr d.direction "1"))).take 10 := by
  refine ⟨?_, ?_, ?_, ?_⟩ <;>
    simp [get_departures, hmiss, cache_departures_snd]

/-- C6: a non-200 timetable response, or a body whose `result`
discriminator is not `"success"`, makes `fetch_all_departures` produce
the empty sequence without raising, and the endpoint still answers 200
with `success: true` and empty lists rather than failing the request. -/
theorem C6_upstream_failure (env : FetchEnv) (t : Int)
    (hfail : env.apiStatus ≠ 200 ∨
      ∃ data r, env.apiBody = some data ∧ pyGet data "result" JSON.null = .ok r ∧
        jsonEqStr r "success" = false) :
    process_api_response env t = [] ∧
    (∀ (re : Bool) (st : RedisState) (sid : String),
      get_cached_departures re st t sid = none →
      (get_departures env re st t sid).status = 200 ∧
      (get_departures env re st t sid).body.success = true ∧
      (get_departures env re st t sid).body.perth = [] ∧
      (get_departures env re st t sid).body.south = []) := by
  have hempty : process_api_response env t = [] := by
    rcases hfail with h | ⟨data, r, hbody, hres, hns⟩
    · simp [process_api_response, h]
    · by_cases hst : env.apiStatus = 200
      · simp [process_api_response, hst, hbody, hres, hns]
      · simp [process_api_response, hst]
  refine ⟨hempty, ?_⟩
  intro re st sid hmiss
  have hdep : (fetch_all_departures env re st t sid none).departures = [] := by
    rcases fetch_all_departures_departures_cases env re st t sid none with h | h
    · rw [h, hempty]
    · exact h
  obtain ⟨h1, h2, h3, h4⟩ := get_departures_miss_shape env re st t sid hmiss
  rw [hdep] at h3 h4
  simp only [List.filter_nil] at h3 h4
  exact ⟨h1, h2, by simpa [sortByMinutes] using h3, by simpa [sortByMinutes] using h4⟩

/-- Witness for C6: the concrete `result: "failure"` environment. -/
theorem C6_witness :
    process_api_response c6env 0 = [] ∧
    (get_departures c6env false RedisState.empty 0 "133").status = 200 ∧
    (get_departures c6env false RedisState.empty 0 "133").body.success = true ∧
    (get_departures c6env false RedisState.empty 0 "133").body.perth = [] ∧
    (get_departures c6env false RedisState.empty 0 "133").body.south = [] :=
  have h := C6_upstream_failure c6env 0
    (Or.inr ⟨.obj [("result", .str "failure")], .str "failure", rfl, rfl, rfl⟩)
  have h2 := h.2 false RedisState.empty "133" rfl
  ⟨h.1, h2.1, h2.2.1, h2.2.2.1, h2.2.2.2⟩

/-- C2: on a cache miss the endpoint partitions the fetched departures
by direction (`"0"` perthbound, `"1"` southbound), stable-sorts each
partition ascending by `minutes` (a sorted permutation preserving every
per-minute fiber), truncates each to its first 10 entries; and on the
concrete 15-trip scenario with distinct minute values exactly the 10
smallest appear, in ascending order. -/
theorem C2_partition_sort_truncate (env : FetchEnv) (re : Bool)
    (st : RedisState) (t : Int) (sid : String)
    (hmiss : get_cached_departures re st t sid = none) :
    (∃ l : List Departure,
      List.Perm l ((fetch_all_departures env re st t sid none).departures.filter
        (fun d => jsonEqStr d.direction "0")) ∧
      l.Pairwise (fun a b => a.minutes ≤ b.minutes) ∧
      (∀ m : Int, l.filter (fun x => decide (x.minutes = m))
        = ((fetch_all_departures env re st t sid none).departures.filter
            (fun d => jsonEqStr d.direction "0")).filter
              (fun x => decide (x.minutes = m))) ∧
      (get_departures env re st t sid).body.perth = l.take 10) ∧
    (∃ l : List Departure,
      List.Perm l ((fetch_all_departures env re st t sid none).departures.filter
        (fun d => jsonEqStr d.direction "1")) ∧
      l.Pairwise (fun a b => a.minutes ≤ b.minutes) ∧
      (∀ m : Int, l.filter (fun x => decide (x.minutes = m))
        = ((fetch_all_departures env re st t sid none).departures.filter
            (fun d => jsonEqStr d.direction "1")).filter
              (fun x => decide (x.minutes = m))) ∧
      (get_departures env re st t sid).body.south = l.take 10) ∧
    (get_departures c2env false RedisState.empty 0 "133").body.perth
      = (List.range 10).map c2dep := by
  obtain ⟨-, -, h3, h4⟩ := get_departures_miss_shape env re st t sid hmiss
  exact
    ⟨⟨sortByMinutes _, sortByMinutes_perm _, sortByMinutes_pairwise _,
      fun m => sortByMinutes_filter _ m, h3⟩,
     ⟨sortByMinutes _, sortByMinutes_perm _, sortByMinutes_pairwise _,
      fun m => sortByMinutes_filter _ m, h4⟩,
     by rfl⟩

/-- Witness for C2: in the 15-trip scenario only the 10 smallest minute
values appear, ascending. -/
theorem C2_witness :
    (get_departures c2env false RedisState.empty 0 "133").body.perth
      = (List.range 10).map c2dep :=
  (C2_partition_sort_truncate c2env false RedisState.empty 0 "133" rfl).2.2

/-- C10: every entry of the returned perth list has direction exactly
`"0"`, every entry of the south list exactly `"1"`, and a fetched
departure with any other direction value lands in neither list. -/
theorem C10_direction_partition (env : FetchEnv) (re : Bool)
    (st : RedisState) (t : Int) (sid : String)
    (hmiss : get_cached_departures re st t sid = none) :
    (∀ d ∈ (get_departures env re st t sid).body.perth, d.direction = .str "0") ∧
    (∀ d ∈ (get_departures env re st t sid).body.south, d.direction = .str "1") ∧
    (∀ d ∈ (fetch_all_departures env re st t sid none).departures,
      d.direction ≠ .str "0" → d.direction ≠ .str "1" →
      d ∉ (get_departures env re st t sid).body.perth ∧
      d ∉ (get_departures env re st t sid).body.south) := by
  obtain ⟨-, -, h3, h4⟩ := get_departures_miss_shape env re st t sid hmiss
  refine ⟨?_, ?_, ?_⟩
  · intro d hd
    rw [h3] at hd
    exact (jsonEqStr_eq_true_iff _ _).mp
      (List.mem_filter.mp (mem_sortByMinutes.mp (List.take_subset _ _ hd))).2
  · intro d hd
    rw [h4] at hd
    exact (jsonEqStr_eq_true_iff _ _).mp
      (List.mem_filter.mp (mem_sortByMinutes.mp (List.take_subset _ _ hd))).2
  · intro d _ h0 h1
    constructor
    · intro hd
      rw [h3] at hd
      exact h0 ((jsonEqStr_eq_true_iff _ _).mp
        (List.mem_filter.mp (mem_sortByMinutes.mp (List.take_subset _ _ hd))).2)
    · intro hd
      rw [h4] at hd
      exact h1 ((jsonEqStr_eq_true_iff _ _).mp
        (List.mem_filter.mp (mem_sortByMinutes.mp (List.take_subset _ _ hd))).2)

/-- Witness for C10 at the 15-trip scenario. -/
theorem C10_witness :
    (∀ d ∈ (get_departures c2env false RedisState.empty 0 "133").body.perth,
      d.direction = .str "0") ∧
    (∀ d ∈ (get_departures c2env false RedisState.empty 0 "133").body.south,
      d.direction = .str "1") :=
  have h := C10_direction_partition c2env false RedisState.empty 0 "133" rfl
  ⟨h.1, h.2.1⟩

/-- C5: a cached token entry (as `cache_tokens` writes it) of age
strictly under 300 s is returned with no HTTP call; with age 300 s or
more, or with no entry at all, exactly one HTTP GET of the
live-timetable page is issued. -/
theorem C5_token_cache (page : PageEnv) (st : RedisState) (ct : CachedTokens)
    (t : Int) :
    (st.tokenEntry = some (ct, ct.timestamp + TOKEN_CACHE_TTL) →
      t - ct.timestamp < TOKEN_CACHE_TTL →
      acquire_tokens page true st t
        = (some ⟨ct.verification_token, ct.module_id, ct.tab_id, ct.timestamp, false⟩,
           st, 0)) ∧
    (st.tokenEntry = some (ct, ct.timestamp + TOKEN_CACHE_TTL) →
      TOKEN_CACHE_TTL ≤ t - ct.timestamp →
      (acquire_tokens page true st t).2.2 = 1) ∧
    (st.tokenEntry = none → (acquire_tokens page true st t).2.2 = 1) := by
  refine ⟨?_, ?_, ?_⟩
  · intro he hage
    have h1 : t < ct.timestamp + TOKEN_CACHE_TTL := by
      simp only [TOKEN_CACHE_TTL] at hage ⊢
      omega
    unfold acquire_tokens get_cached_tokens
    rw [he]
    simp [h1, hage]
  · intro he hage
    have h1 : ¬ t < ct.timestamp + TOKEN_CACHE_TTL := by
      simp only [TOKEN_CACHE_TTL] at hage ⊢
      omega
    unfold acquire_tokens get_cached_tokens
    rw [he]
    rcases hp : fetch_page_tokens page t with _ | tk <;> simp [h1, hp]
  · intro he
    unfold acquire_tokens get_cached_tokens
    rw [he]
    rcases hp : fetch_page_tokens page t with _ | tk <;> simp [hp]

/-- Witness for C5: a 100 s old token is reused with zero GETs; a 400 s
old token and an empty store each cost exactly one GET. -/
theorem C5_witness :
    acquire_tokens c1env.page true c5st 100
      = (some ⟨c5tok.verification_token, c5tok.module_id, c5tok.tab_id,
          c5tok.timestamp, false⟩, c5st, 0) ∧
    (acquire_tokens c1env.page true c5st 400).2.2 = 1 ∧
    (acquire_tokens c1env.page true RedisState.empty 100).2.2 = 1 :=
  ⟨(C5_token_cache c1env.page c5st c5tok 100).1 rfl (by decide),
   (C5_token_cache c1env.page c5st c5tok 400).2.1 rfl (by decide),
   (C5_token_cache c1env.page RedisState.empty c5tok 100).2.2 rfl⟩

/-- The departure entry `cache_departures` writes is the newest one for
its station, carrying the dict fields, `cached_at = now`, TTL 30 s. -/
theorem cache_departures_lookup (st : RedisState) (t : Int) (sid : String)
    (data : DepBody) :
    ((cache_departures true st t sid data).1).lookupDep sid
      = some (⟨data.success, data.perth, data.south, data.station_id,
          data.last_updated, t⟩, t + DEPARTURE_CACHE_TTL) := by
  simp [cache_departures, RedisState.lookupDep, List.find?_cons_of_pos]

/-- Reading the store before the 30 s expiry returns the entry just
written. -/
theorem get_cached_after_cache (st : RedisState) (t0 t1 : Int) (sid : String)
    (data : DepBody) (h : t1 < t0 + DEPARTURE_CACHE_TTL) :
    get_cached_departures true (cache_departures true st t0 sid data).1 t1 sid
      = some ⟨data.success, data.perth, data.south, data.station_id,
          data.last_updated, t0⟩ := by
  simp [get_cached_departures, cache_departures_lookup, h]

/-- C4: with the store configured and no prior entry for the station,
two consecutive `get_departures` calls within 30 s issue at most one
timetable POST (and at most one page GET) in total: the second call
issues no upstream traffic at all and is served from the entry the
first call wrote, with the `cached_at` metadata stripped. -/
theorem C4_cache_aside (env env2 : FetchEnv) (st : RedisState) (t0 t1 : Int)
    (sid : String)
    (hnone : st.lookupDep sid = none)
    (_h01 : t0 ≤ t1)
    (h30 : t1 < t0 + DEPARTURE_CACHE_TTL) :
    (get_departures env2 true (get_departures env true st t0 sid).st t1 sid).gets = 0 ∧
    (get_departures env2 true (get_departures env true st t0 sid).st t1 sid).posts = 0 ∧
    (get_departures env true st t0 sid).posts
      + (get_departures env2 true (get_departures env true st t0 sid).st t1 sid).posts ≤ 1 ∧
    (get_departures env true st t0 sid).gets
      + (get_departures env2 true (get_departures env true st t0 sid).st t1 sid).gets ≤ 1 ∧
    (get_departures env2 true (get_departures env true st t0 sid).st t1 sid).status = 200 ∧
    (get_departures env2 true (get_departures env true st t0 sid).st t1 sid).body
      = { (get_departures env true st t0 sid).body with cached_at := none } := by
  have hmiss : get_cached_departures true st t0 sid = none := by
    simp [get_cached_departures, hnone]
  have hp := fetch_all_departures_posts_le_one env true st t0 sid none
  have hg := fetch_all_departures_gets_le_one env true st t0 sid none
  refine ⟨?_, ?_, ?_, ?_, ?_, ?_⟩ <;>
    simp [get_departures, hmiss, get_cached_after_cache, cache_departures_snd, h30] <;>
    try omega

/-- Witness for C4: the 15-trip environment, calls at 0 s and 10 s. -/
theorem C4_witness :
    (get_departures c2env true (get_departures c2env true RedisState.empty 0 "133").st
        10 "133").posts = 0 ∧
    (get_departures c2env true RedisState.empty 0 "133").posts
      + (get_departures c2env true (get_departures c2env true RedisState.empty 0 "133").st
          10 "133").posts ≤ 1 ∧
    (get_departures c2env true (get_departures c2env true RedisState.empty 0 "133").st
        10 "133").body
      = { (get_departures c2env true RedisState.empty 0 "133").body with cached_at := none } :=
  have h := C4_cache_aside c2env c2env RedisState.empty 0 10 "133" rfl
    (by decide) (by decide)
  ⟨h.2.1, h.2.2.1, h.2.2.2.2.2⟩

/-- Counterexample to C1 as stated: with no cache configured and the
token page answering 500, no token is obtainable — yet the request does
not fail with a 500: the endpoint returns HTTP 200 with `success: true`
and empty perth/south lists. -/
theorem C1_counterexample :
    get_cached_tokens false RedisState.empty 0 = none ∧
    fetch_page_tokens c1env.page 0 = none ∧
    (get_departures c1env false RedisState.empty 0 "133").status = 200 ∧
    (get_departures c1env false RedisState.empty 0 "133").body.success = true ∧
    (get_departures c1env false RedisState.empty 0 "133").body.perth = [] ∧
    (get_departures c1env false RedisState.empty 0 "133").body.south = [] :=
  ⟨rfl, rfl, rfl, rfl, rfl, rfl⟩

/-- C1 as amended: whenever no token can be obtained (no fresh cached
token and the page fetch yields none), `fetch_all_departures` returns
the empty list and the request completes as an HTTP 200 success with
empty perthbound and southbound lists — no `UpstreamUnavailable`/500 is
produced. -/
theorem C1_amended_no_token (env : FetchEnv) (re : Bool) (st : RedisState)
    (t : Int) (sid : String)
    (hmissdep : get_cached_departures re st t sid = none)
    (htok : get_cached_tokens re st t = none)
    (hpage : fetch_page_tokens env.page t = none) :
    (fetch_all_departures env re st t sid none).departures = [] ∧
    (get_departures env re st t sid).status = 200 ∧
    (get_departures env re st t sid).body.success = true ∧
    (get_departures env re st t sid).body.perth = [] ∧
    (get_departures env re st t sid).body.south = [] := by
  have hacq : acquire_tokens env.page re st t = (none, st, 1) := by
    simp [acquire_tokens, htok, hpage]
  have hdep : (fetch_all_departures env re st t sid none).departures = [] := by
    simp [fetch_all_departures, hacq]
  obtain ⟨h1, h2, h3, h4⟩ := get_departures_miss_shape env re st t sid hmissdep
  rw [hdep] at h3 h4
  exact ⟨hdep, h1, h2, by simpa [sortByMinutes] using h3,
    by simpa [sortByMinutes] using h4⟩

/-- Witness for the amended C1 at the concrete no-token environment. -/
theorem C1_amended_witness :
    (fetch_all_departures c1env false RedisState.empty 0 "133" none).departures = [] ∧
    (get_departures c1env false RedisState.empty 0 "133").status = 200 ∧
    (get_departures c1env false RedisState.empty 0 "133").body.success = true ∧
    (get_departures c1env false RedisState.empty 0 "133").body.perth = [] ∧
    (get_departures c1env false RedisState.empty 0 "133").body.south = [] :=
  C1_amended_no_token c1env false RedisState.empty 0 "133" rfl rfl rfl
